import Mathlib

/-!
Verification development for the Study-Ai PDF page-analysis orchestrator.

The definitions below are a shallow embedding of the orchestration layer of
the repository:

* `PdfPageNavigator` (source file `part_000`): the per-page analysis driver
  `analyzePage` with its bounded 429-retry loop, the batch driver
  `analyzeAllPages`, the two consolidation functions
  `saveConsolidatedHistoryForPage` and `saveConsolidatedHistory`, and the
  `studyHistoryId` session recovery initializer.
* The Gemini service module (source file `part_002`): `generateQuestions`
  question sanitization and the `analyzeIndividualPage` prompt construction.

External collaborators (the Gemini client, the page-text extractor, the
Firestore record store) are modelled as oracles supplied by the caller:
`Env.client`, `Env.extract`, `Store.createResult`, `Store.updateOk`.
JavaScript `Map` insertion-order semantics are modelled by `MapMod` as an
association list.  State mutation through React `useState` setters is
modelled as sequential state passing in a `World`; every external call is
recorded as an `Event` so that traces (client calls, delays, store calls)
can be reasoned about.
-/

/-- One study point of a page analysis (interface `PageAnalysis.studyPoints`
in `part_000`). -/
structure StudyPoint where
  title : String
  description : String
  importance : String
  tnpscRelevance : String
deriving Repr, DecidableEq

/-- Analysis record of one page (interface `PageAnalysis` in `part_000`). -/
structure PageAnalysis where
  pageNumber : Nat
  keyPoints : List String
  studyPoints : List StudyPoint
  summary : String
  tnpscRelevance : String
  isAnalyzed : Bool
deriving Repr, DecidableEq

/-- The merged payload sent to the record store (`analysisResult` object
built inside both consolidation functions of `part_000`). -/
structure AnalysisResult where
  keyPoints : List String
  summary : String
  tnpscRelevance : String
  studyPoints : List StudyPoint
  tnpscCategories : List String
  mainTopic : String
deriving Repr, DecidableEq

namespace MapMod

/-- JavaScript `Map.get` on the insertion-ordered association list. -/
def get (m : List (Nat × PageAnalysis)) (k : Nat) : Option PageAnalysis :=
  (m.find? (fun p => p.1 == k)).map (fun p => p.2)

/-- JavaScript `Map.set`: replace in place when the key exists, otherwise
append at the end (insertion order is preserved). -/
def set (m : List (Nat × PageAnalysis)) (k : Nat) (v : PageAnalysis) :
    List (Nat × PageAnalysis) :=
  if m.any (fun p => p.1 == k) then
    m.map (fun p => if p.1 == k then (k, v) else p)
  else
    m ++ [(k, v)]

/-- JavaScript `Map.values()` in insertion order. -/
def values (m : List (Nat × PageAnalysis)) : List PageAnalysis :=
  m.map (fun p => p.2)

end MapMod

/-- The merged record built by `saveConsolidatedHistoryForPage`
(`part_000`, lines 302-320): key points and study points are concatenated
unprefixed, summaries and relevance are page-labelled, and only the
`mainTopic` page list is sorted ascending.  The input list is
`Array.from(map.values()).filter(p => p.isAnalyzed)`, i.e. in map insertion
order. -/
def consolidatedResultForPage (fileName : String)
    (analyzedPagesList : List PageAnalysis) : AnalysisResult :=
  { keyPoints := analyzedPagesList.flatMap (fun page => page.keyPoints)
    studyPoints := analyzedPagesList.flatMap (fun page => page.studyPoints)
    summary := String.intercalate "\n\n"
      (analyzedPagesList.map (fun page =>
        "Page " ++ toString page.pageNumber ++ ": " ++ page.summary))
    tnpscRelevance := String.intercalate "\n\n"
      (analyzedPagesList.map (fun page =>
        "Page " ++ toString page.pageNumber ++ ": " ++ page.tnpscRelevance))
    tnpscCategories :=
      ["PDF Analysis - " ++ toString analyzedPagesList.length ++ " pages"]
    mainTopic := fileName ++ " - Pages " ++
      String.intercalate ", "
        (((analyzedPagesList.map (fun p => p.pageNumber)).insertionSort
            (· ≤ ·)).map toString) }

/-- The merged record built by `saveConsolidatedHistory`
(`part_000`, lines 369-395): same as `consolidatedResultForPage` except key
points and study-point titles carry a `Page n:` label. -/
def consolidatedResultFull (fileName : String)
    (analyzedPagesList : List PageAnalysis) : AnalysisResult :=
  { keyPoints := analyzedPagesList.flatMap (fun page =>
      page.keyPoints.map (fun point =>
        "Page " ++ toString page.pageNumber ++ ": " ++ point))
    studyPoints := analyzedPagesList.flatMap (fun page =>
      page.studyPoints.map (fun point =>
        { point with
            title := "Page " ++ toString page.pageNumber ++ ": " ++ point.title }))
    summary := String.intercalate "\n\n"
      (analyzedPagesList.map (fun page =>
        "Page " ++ toString page.pageNumber ++ ": " ++ page.summary))
    tnpscRelevance := String.intercalate "\n\n"
      (analyzedPagesList.map (fun page =>
        "Page " ++ toString page.pageNumber ++ ": " ++ page.tnpscRelevance))
    tnpscCategories :=
      ["PDF Analysis - " ++ toString analyzedPagesList.length ++ " pages"]
    mainTopic := fileName ++ " - Pages " ++
      String.intercalate ", "
        (((analyzedPagesList.map (fun p => p.pageNumber)).insertionSort
            (· ≤ ·)).map toString) }

/-- Builds the page-analyses map from a sequence of page completions in
completion order, exactly as `setPageAnalyses(prev => new Map(prev.set(n, a)))`
accumulates them. -/
def mapFromCompletions (completions : List PageAnalysis) :
    List (Nat × PageAnalysis) :=
  completions.foldl (fun m pa => MapMod.set m pa.pageNumber pa) []

/-- The cumulative record obtained after completing the given pages in the
given order: `Array.from(map.values()).filter(isAnalyzed)` fed to the
page-wise merge. -/
def consolidateCompletions (fileName : String)
    (completions : List PageAnalysis) : AnalysisResult :=
  consolidatedResultForPage fileName
    ((MapMod.values (mapFromCompletions completions)).filter
      (fun p => p.isAnalyzed))

/-- Result of one `analyzeIndividualPage` call as observed by `analyzePage`:
either the parsed analysis fields (the service fills `pageNumber` itself
from its argument) or a thrown error carrying a message string. -/
structure ClientAnalysis where
  keyPoints : List String
  studyPoints : List StudyPoint
  summary : String
  tnpscRelevance : String
  tnpscCategories : List String
deriving Repr, DecidableEq

/-- Outcome of one Analysis Client call. -/
inductive ClientResult where
  | success (a : ClientAnalysis)
  | failure (msg : String)
deriving Repr, DecidableEq

/-- Observable external actions of one session, in issue order.
`clientCall` records the page, the 0-based retry attempt and the issue
time; `createCall` records the outcome (`some id` on success, `none` when
the store threw) and the merged payload; `updateCall` records the record
id, whether the store call succeeded, and the payload. -/
inductive Event where
  | clientCall (page : Nat) (attempt : Nat) (time : Nat)
  | delayEvent (ms : Nat)
  | createCall (outcome : Option String) (payload : AnalysisResult)
  | updateCall (id : String) (ok : Bool) (payload : AnalysisResult)
  | pageCompleted (page : Nat)
deriving Repr, DecidableEq

/-- In-memory session state plus the trace of external actions.  `time` is
advanced only by `setTimeout` waits, so event timestamps give lower bounds
on real elapsed time; `storeCalls` counts store calls made so far and
indexes the store oracle. -/
structure World where
  pageAnalyses : List (Nat × PageAnalysis)
  studyHistoryId : Option String
  events : List Event
  time : Nat
  storeCalls : Nat
deriving Repr, DecidableEq

/-- A fresh session world. -/
def initialWorld : World :=
  { pageAnalyses := [], studyHistoryId := none, events := [], time := 0,
    storeCalls := 0 }

/-- Deterministic environment of one session: the file, the signed-in
state, the page-text extractor oracle (`extractPageRangeFromOcr`) and the
Analysis Client oracle (`analyzeIndividualPage`), indexed by page and
0-based attempt. -/
structure Env where
  fileName : String
  totalPages : Nat
  user : Bool
  extract : Nat → String
  client : Nat → Nat → ClientResult

/-- Persistent Record Store oracle, indexed by the number of store calls
already made: `createResult n` is the outcome of the `n`-th store call if
it is a `saveStudyHistory`, `updateOk n` if it is an `updateStudyHistory`. -/
structure Store where
  createResult : Nat → Option String
  updateOk : Nat → Bool

/-- Models the JavaScript blank test `!pageContent.trim()`: true exactly
when every character of the extracted page text is whitespace. -/
def isBlankText (s : String) : Bool :=
  s.data.all (fun c => c.isWhitespace)

/-- Character-list version of `String.startsWith`. -/
def charsStartWith : List Char → List Char → Bool
  | _, [] => true
  | [], _ :: _ => false
  | c :: cs, d :: ds => c == d && charsStartWith cs ds

/-- Character-list substring containment. -/
def charsIncludes : List Char → List Char → Bool
  | [], needle => needle.isEmpty
  | c :: rest, needle =>
    charsStartWith (c :: rest) needle || charsIncludes rest needle

/-- Models JavaScript `s.includes(sub)` (used as
`error.message.includes("429")` in the retry loop of `analyzePage`). -/
def strIncludes (s sub : String) : Bool :=
  charsIncludes s.data sub.data

/-- The store synchronization step shared (verbatim in the source) by both
consolidation functions of `part_000`: when `studyHistoryId` is set, issue
`updateStudyHistory`; otherwise issue `saveStudyHistory` and, when it
succeeds, store the returned id in the session state.  A thrown store
error is caught by the callers, so the state is otherwise unchanged. -/
def syncHistoryRecord (store : Store) (w : World) (payload : AnalysisResult) :
    World :=
  match w.studyHistoryId with
  | some id =>
    { w with
        events := w.events ++ [.updateCall id (store.updateOk w.storeCalls) payload],
        storeCalls := w.storeCalls + 1 }
  | none =>
    match store.createResult w.storeCalls with
    | some newId =>
      { w with
          events := w.events ++ [.createCall (some newId) payload],
          storeCalls := w.storeCalls + 1,
          studyHistoryId := some newId }
    | none =>
      { w with
          events := w.events ++ [.createCall none payload],
          storeCalls := w.storeCalls + 1 }

/-- The `analyzedPagesList` computed by `saveConsolidatedHistoryForPage`:
the values of the page map extended with the page just analyzed, filtered
to analyzed pages, in map insertion order. -/
def analyzedPagesForSave (w : World) (currentPageNum : Nat)
    (currentPageAnalysis : PageAnalysis) : List PageAnalysis :=
  (MapMod.values (MapMod.set w.pageAnalyses currentPageNum currentPageAnalysis)).filter
    (fun p => p.isAnalyzed)

/-- The `analyzedPagesList` computed by `saveConsolidatedHistory`. -/
def analyzedPagesOf (w : World) : List PageAnalysis :=
  (MapMod.values w.pageAnalyses).filter (fun p => p.isAnalyzed)

/-- `saveConsolidatedHistoryForPage` (`part_000`, lines 281-360): rebuilds
the merged record from the page map extended with the page just analyzed
and synchronizes it with the store, updating when `studyHistoryId` is set
and creating (and storing the returned id) otherwise.  Store errors are
caught, so the function always returns and never touches the page map. -/
def saveConsolidatedHistoryForPage (env : Env) (store : Store) (w : World)
    (currentPageNum : Nat) (currentPageAnalysis : PageAnalysis) : World :=
  if !env.user then w
  else if (analyzedPagesForSave w currentPageNum currentPageAnalysis).isEmpty then w
  else
    syncHistoryRecord store w
      (consolidatedResultForPage env.fileName
        (analyzedPagesForSave w currentPageNum currentPageAnalysis))

/-- `saveConsolidatedHistory` (`part_000`, lines 362-424): same store
synchronization over the current page map, with the fully page-labelled
merge; all errors are caught. -/
def saveConsolidatedHistory (env : Env) (store : Store) (w : World) : World :=
  if !env.user then w
  else if (analyzedPagesOf w).isEmpty then w
  else
    syncHistoryRecord store w
      (consolidatedResultFull env.fileName (analyzedPagesOf w))

/-- `maxRetries` constant of `analyzePage`. -/
def maxRetries : Nat := 3

/-- The page record stored on success: `{ ...analysis, isAnalyzed: true }`. -/
def toPageAnalysis (page : Nat) (ca : ClientAnalysis) : PageAnalysis :=
  { pageNumber := page, keyPoints := ca.keyPoints,
    studyPoints := ca.studyPoints, summary := ca.summary,
    tnpscRelevance := ca.tnpscRelevance, isAnalyzed := true }

/-- The synthesized record for a page with no text content
(`part_000`, lines 448-455). -/
def emptyAnalysis (page : Nat) : PageAnalysis :=
  { pageNumber := page, keyPoints := [], studyPoints := [],
    summary := "No text content found on this page.",
    tnpscRelevance := "Not applicable for this page.",
    isAnalyzed := true }

/-- The skip test at the top of `analyzePage`:
`pageAnalyses.has(n) && pageAnalyses.get(n)?.isAnalyzed`. -/
def pageIsAnalyzed (m : List (Nat × PageAnalysis)) (page : Nat) : Bool :=
  match MapMod.get m page with
  | some pa => pa.isAnalyzed
  | none => false

/-- The retry loop body of `analyzePage` (`part_000`, lines 441-490).
`fuel` counts the remaining loop iterations, so the 0-based attempt index
is `maxRetries - fuel`; `delay` is the current backoff delay.  Each
iteration extracts the page text, completes synchronously on blank text,
otherwise calls the client; a failure whose message includes "429" retries
after `delay` ms with the delay doubled while attempts remain, and any
other failure (or exhaustion) rethrows, which the returned flag records as
`false`. -/
def analyzePageGo (env : Env) (store : Store) (page : Nat) :
    Nat → Nat → World → World × Bool
  | 0, _, w => (w, true)
  | fuel + 1, delay, w =>
    let pageContent := env.extract page
    if isBlankText pageContent then
      ({ w with
          pageAnalyses := MapMod.set w.pageAnalyses page (emptyAnalysis page),
          events := w.events ++ [.pageCompleted page] }, true)
    else
      let attempt := maxRetries - (fuel + 1)
      let w1 := { w with events := w.events ++ [.clientCall page attempt w.time] }
      match env.client page attempt with
      | .success ca =>
        let pageAnalysis := toPageAnalysis page ca
        let w2 :=
          { w1 with
              pageAnalyses := MapMod.set w1.pageAnalyses page pageAnalysis,
              events := w1.events ++ [.pageCompleted page] }
        (saveConsolidatedHistoryForPage env store w2 page pageAnalysis, true)
      | .failure msg =>
        if strIncludes msg "429" && !(fuel == 0) then
          analyzePageGo env store page fuel (delay * 2)
            { w1 with
                time := w1.time + delay,
                events := w1.events ++ [.delayEvent delay] }
        else
          (w1, false)

/-- `analyzePage` (`part_000`, lines 427-491): no-op on an already
analyzed page, otherwise the bounded retry loop starting with a 2000 ms
backoff.  The boolean is `false` exactly when the call threw. -/
def analyzePage (env : Env) (store : Store) (w : World) (page : Nat) :
    World × Bool :=
  if pageIsAnalyzed w.pageAnalyses page then (w, true)
  else analyzePageGo env store page maxRetries 2000 w

/-- Loop body of `analyzeAllPages` (`part_000`, lines 513-544) over the
remaining page indices: skip analyzed pages, run `analyzePage`, insert a
1000 ms delay after a successful call when more pages exist, and stop at
the first thrown error, reporting the failing page. -/
def analyzeAllPagesGo (env : Env) (store : Store) :
    List Nat → World → World × Option Nat
  | [], w => (w, none)
  | i :: rest, w =>
    if pageIsAnalyzed w.pageAnalyses i then
      analyzeAllPagesGo env store rest w
    else
      match analyzePage env store w i with
      | (w1, true) =>
        let w2 :=
          if i < env.totalPages then
            { w1 with
                time := w1.time + 1000,
                events := w1.events ++ [.delayEvent 1000] }
          else w1
        analyzeAllPagesGo env store rest w2
      | (w1, false) => (w1, some i)

/-- `analyzeAllPages`: iterate pages `1..totalPages` in ascending order;
the result reports the first page with a terminal failure, if any. -/
def analyzeAllPages (env : Env) (store : Store) (w : World) :
    World × Option Nat :=
  analyzeAllPagesGo env store (List.range' 1 env.totalPages) w

/-- The session-storage key `studyHistoryId_${file.name}_${file.size}`. -/
def sessionKey (fileName : String) (fileSize : Nat) : String :=
  "studyHistoryId_" ++ fileName ++ "_" ++ toString fileSize

/-- The `useState` initializer of `studyHistoryId` (`part_000`, lines
241-258): an id passed in props wins, else the session-scoped cache keyed
by file name and size, else none. -/
def initStudyHistoryId (initialStudyHistoryId : Option String)
    (sessionCache : List (String × String))
    (fileName : String) (fileSize : Nat) : Option String :=
  match initialStudyHistoryId with
  | some id => some id
  | none =>
    match (sessionCache.find? (fun p => p.1 == sessionKey fileName fileSize)).map
        (fun p => p.2) with
    | some sessionId => some sessionId
    | none => none

/-- One session-level operation: a manual or navigation-triggered
`analyzePage`, or the effect-triggered `saveConsolidatedHistory`. -/
inductive SessionOp where
  | analyze (page : Nat)
  | consolidate

/-- Applies one session operation to the world. -/
def runOp (env : Env) (store : Store) (w : World) : SessionOp → World
  | .analyze page => (analyzePage env store w page).1
  | .consolidate => saveConsolidatedHistory env store w

/-- Applies a sequence of session operations. -/
def runOps (env : Env) (store : Store) (w : World) (ops : List SessionOp) :
    World :=
  ops.foldl (runOp env store) w

/-- A sorted permutation of naturals is unique, so any correct ascending
sort (modelling the JavaScript numeric `.sort((a, b) => a - b)`) is
invariant under permutation of its input. -/
lemma insertionSort_eq_of_perm {l₁ l₂ : List Nat} (h : l₁.Perm l₂) :
    List.insertionSort (· ≤ ·) l₁ = List.insertionSort (· ≤ ·) l₂ :=
  List.eq_of_perm_of_sorted
    (((List.perm_insertionSort _ l₁).trans h).trans
      (List.perm_insertionSort _ l₂).symm)
    (List.sorted_insertionSort _ l₁) (List.sorted_insertionSort _ l₂)

/-- Folding `Map.set` over completions whose page numbers are fresh and
pairwise distinct appends each entry, so `values` returns the completions
in completion order. -/
lemma values_foldl_set :
    ∀ (cs : List PageAnalysis) (m : List (Nat × PageAnalysis)),
      (∀ pa ∈ cs, ∀ q ∈ m, ¬ q.1 = pa.pageNumber) →
      (cs.map (fun p => p.pageNumber)).Nodup →
      MapMod.values (cs.foldl (fun acc pa => MapMod.set acc pa.pageNumber pa) m)
        = MapMod.values m ++ cs
  | [], m, _, _ => by simp
  | pa :: rest, m, hdisj, hnd => by
    have hany : (m.any (fun p => p.1 == pa.pageNumber)) = false := by
      simp only [List.any_eq_false]
      intro q hq
      simpa using hdisj pa (by simp) q hq
    have hset : MapMod.set m pa.pageNumber pa = m ++ [(pa.pageNumber, pa)] := by
      simp [MapMod.set, hany]
    have hnd' : (rest.map (fun p => p.pageNumber)).Nodup := by
      simpa using hnd.of_cons
    have hdisj' : ∀ pb ∈ rest, ∀ q ∈ m ++ [(pa.pageNumber, pa)],
        ¬ q.1 = pb.pageNumber := by
      intro pb hpb q hq
      rcases List.mem_append.1 hq with hq | hq
      · exact hdisj pb (by simp [hpb]) q hq
      · simp only [List.mem_singleton] at hq
        subst hq
        simp only [List.map_cons, List.nodup_cons] at hnd
        intro hcontra
        apply hnd.1
        have hx : pb.pageNumber ∈ List.map (fun p => p.pageNumber) rest := by
          simpa using List.mem_map_of_mem (fun p => p.pageNumber) hpb
        rwa [show pb.pageNumber = pa.pageNumber from hcontra.symm] at hx
    have hrec := values_foldl_set rest (m ++ [(pa.pageNumber, pa)]) hdisj' hnd'
    rw [List.foldl_cons, hset, hrec]
    simp [MapMod.values]

/-- For completions with pairwise distinct page numbers, the map holds
exactly the completions in completion order. -/
lemma values_mapFromCompletions (cs : List PageAnalysis)
    (hnd : (cs.map (fun p => p.pageNumber)).Nodup) :
    MapMod.values (mapFromCompletions cs) = cs := by
  have := values_foldl_set cs [] (by intro pa _ q hq; simp at hq) hnd
  simpa [mapFromCompletions, MapMod.values] using this

/-- Page-1 completion used in the merge-order counterexample. -/
def cexPageA : PageAnalysis :=
  { pageNumber := 1, keyPoints := ["K1"], studyPoints := [], summary := "S1",
    tnpscRelevance := "R1", isAnalyzed := true }

/-- Page-2 completion used in the merge-order counterexample. -/
def cexPageB : PageAnalysis :=
  { pageNumber := 2, keyPoints := ["K2"], studyPoints := [], summary := "S2",
    tnpscRelevance := "R2", isAnalyzed := true }

/-- C2, counterexample: completing the same two pages in order 2,1 versus
1,2 yields different Cumulative Records, because the merge iterates the
page map in insertion (completion) order, not ascending page order: the
concatenated key points and the page-labelled summary and relevance
differ, contradicting the claim that the merged record is a function of
the completed-unit set merged in ascending unit index. -/
theorem C2_merge_counterexample :
    [cexPageB, cexPageA].Perm [cexPageA, cexPageB]
    ∧ consolidateCompletions "doc.pdf" [cexPageB, cexPageA]
        ≠ consolidateCompletions "doc.pdf" [cexPageA, cexPageB] :=
  ⟨List.Perm.swap cexPageA cexPageB [], by decide⟩

/-- C2, amended: the Cumulative Record is a function of the completion
sequence in completion (insertion) order, not of the completed set alone.
For two completion orders of the same set of pages (distinct page
numbers), the `mainTopic` page list (the only sorted component) and the
category set agree; the full records agree when both sequences complete
the pages in ascending page order, but in general the concatenated key
points, study points, summaries and relevance follow completion order. -/
theorem C2_merge_amended (fileName : String) (cs₁ cs₂ : List PageAnalysis)
    (hnd : (cs₁.map (fun p => p.pageNumber)).Nodup)
    (hperm : cs₁.Perm cs₂) :
    (consolidateCompletions fileName cs₁).mainTopic
      = (consolidateCompletions fileName cs₂).mainTopic
    ∧ (consolidateCompletions fileName cs₁).tnpscCategories
      = (consolidateCompletions fileName cs₂).tnpscCategories
    ∧ (List.Pairwise (fun a b => a.pageNumber < b.pageNumber) cs₁ →
        List.Pairwise (fun a b => a.pageNumber < b.pageNumber) cs₂ →
        consolidateCompletions fileName cs₁ = consolidateCompletions fileName cs₂) := by
  have hnd₂ : (cs₂.map (fun p => p.pageNumber)).Nodup :=
    (hperm.map (fun p => p.pageNumber)).nodup hnd
  have hv₁ := values_mapFromCompletions cs₁ hnd
  have hv₂ := values_mapFromCompletions cs₂ hnd₂
  have hfilter : (cs₁.filter (fun p => p.isAnalyzed)).Perm
      (cs₂.filter (fun p => p.isAnalyzed)) := hperm.filter _
  refine ⟨?_, ?_, ?_⟩
  · simp only [consolidateCompletions, hv₁, hv₂, consolidatedResultForPage]
    rw [insertionSort_eq_of_perm (hfilter.map (fun p => p.pageNumber))]
  · simp only [consolidateCompletions, hv₁, hv₂, consolidatedResultForPage]
    rw [hfilter.length_eq]
  · intro hs₁ hs₂
    haveI : IsAntisymm PageAnalysis (fun a b => a.pageNumber < b.pageNumber) :=
      ⟨fun a b h₁ h₂ => absurd h₂ (Nat.lt_asymm h₁)⟩
    have : cs₁ = cs₂ := List.eq_of_perm_of_sorted hperm hs₁ hs₂
    rw [this]

/-- Witness for the amended C2 theorem at a concrete pair of completion
orders of the same page set. -/
theorem C2_merge_amended_witness :
    (([cexPageB, cexPageA].map (fun p => p.pageNumber)).Nodup
      ∧ [cexPageB, cexPageA].Perm [cexPageA, cexPageB])
    ∧ (consolidateCompletions "doc.pdf" [cexPageB, cexPageA]).mainTopic
        = (consolidateCompletions "doc.pdf" [cexPageA, cexPageB]).mainTopic :=
  ⟨⟨by decide, List.Perm.swap cexPageA cexPageB []⟩,
    (C2_merge_amended "doc.pdf" [cexPageB, cexPageA] [cexPageA, cexPageB]
      (by decide) (List.Perm.swap cexPageA cexPageB [])).1⟩

/-- Raw question record as parsed from the model response in
`generateQuestions` (`part_002`): `options` is `none` when the field is
missing or not an array; `answer` and `qtype` may hold arbitrary strings;
a missing `explanation` is modelled as the empty string, which is falsy in
JavaScript. -/
structure RawQuestion where
  question : String
  options : Option (List String)
  answer : String
  qtype : String
  explanation : String
deriving Repr, DecidableEq

/-- A question record after sanitization. -/
structure FormattedQuestion where
  question : String
  options : List String
  answer : String
  qtype : String
  explanation : String
deriving Repr, DecidableEq

/-- The per-record sanitization of `generateQuestions` (`part_002`, lines
168-174): coerce the type to `mcq` unless recognized, replace any options
field that is not exactly four options by the placeholder options, replace
any answer outside A-D by `A`, and default a falsy explanation. -/
def sanitizeQuestion (q : RawQuestion) : FormattedQuestion :=
  { question := q.question
    qtype :=
      if q.qtype == "mcq" || q.qtype == "assertion_reason" then q.qtype
      else "mcq"
    options :=
      match q.options with
      | some os =>
        if os.length == 4 then os
        else ["Option A", "Option B", "Option C", "Option D"]
      | none => ["Option A", "Option B", "Option C", "Option D"]
    answer := if ["A", "B", "C", "D"].contains q.answer then q.answer else "A"
    explanation :=
      if q.explanation == "" then "No explanation provided."
      else q.explanation }

/-- Result shape of `generateQuestions`. -/
structure QuestionResult where
  questions : List FormattedQuestion
  summary : String
  keyPoints : List String
  difficulty : String
  totalQuestions : Nat
deriving Repr, DecidableEq

/-- `generateQuestions` (`part_002`, lines 126-183), given the raw records
returned by the client oracle: every record is sanitized before being
returned, and summary and key points are recombined from the input
analyses. -/
def generateQuestions (analysisResults : List AnalysisResult)
    (difficulty : String) (rawQuestions : List RawQuestion) : QuestionResult :=
  let formattedQuestions := rawQuestions.map sanitizeQuestion
  { questions := formattedQuestions
    summary := String.intercalate " " (analysisResults.map (fun r => r.summary))
    keyPoints := analysisResults.flatMap (fun r => r.keyPoints)
    difficulty := difficulty
    totalQuestions := formattedQuestions.length }

/-- C8: every question record returned by the quiz generation operation is
well-formed: it has exactly four options, an answer tag in A-D and a
recognized type; in particular a record with answer tag E is normalized to
the valid option A, so malformed records never reach a caller. -/
theorem C8_question_sanitization (analysisResults : List AnalysisResult)
    (difficulty : String) (rawQuestions : List RawQuestion)
    (fq : FormattedQuestion)
    (hmem : fq ∈ (generateQuestions analysisResults difficulty rawQuestions).questions) :
    fq.options.length = 4
    ∧ (fq.answer = "A" ∨ fq.answer = "B" ∨ fq.answer = "C" ∨ fq.answer = "D")
    ∧ (fq.qtype = "mcq" ∨ fq.qtype = "assertion_reason")
    ∧ (∀ q : RawQuestion, q.answer = "E" → (sanitizeQuestion q).answer = "A") := by
  simp only [generateQuestions, List.mem_map] at hmem
  obtain ⟨q, -, rfl⟩ := hmem
  refine ⟨?_, ?_, ?_, ?_⟩
  · simp only [sanitizeQuestion]
    rcases hq : q.options with _ | os
    · simp
    · simp only [hq]
      by_cases h : (os.length == 4) = true
      · rw [if_pos h]
        simpa using h
      · rw [if_neg h]
        rfl
  · simp only [sanitizeQuestion]
    by_cases h : (["A", "B", "C", "D"].contains q.answer) = true
    · rw [if_pos h]
      simpa using h
    · rw [if_neg h]
      exact Or.inl rfl
  · simp only [sanitizeQuestion]
    by_cases h : (q.qtype == "mcq" || q.qtype == "assertion_reason") = true
    · rw [if_pos h]
      rcases Bool.or_eq_true_iff.1 h with h1 | h1
      · exact Or.inl (by simpa using h1)
      · exact Or.inr (by simpa using h1)
    · rw [if_neg h]
      exact Or.inl rfl
  · intro q2 hq2
    simp [sanitizeQuestion, hq2, List.contains]

/-- A raw record with three options, answer tag E and an unrecognized
type, as the client may return it. -/
def rawQuestionE : RawQuestion :=
  { question := "Which option is correct", options := some ["o1", "o2", "o3"],
    answer := "E", qtype := "essay", explanation := "" }

/-- Witness for C8 at a concrete malformed record with answer tag E. -/
theorem C8_question_sanitization_witness :
    (sanitizeQuestion rawQuestionE
        ∈ (generateQuestions [] "medium" [rawQuestionE]).questions)
    ∧ ((sanitizeQuestion rawQuestionE).options.length = 4
      ∧ ((sanitizeQuestion rawQuestionE).answer = "A"
          ∨ (sanitizeQuestion rawQuestionE).answer = "B"
          ∨ (sanitizeQuestion rawQuestionE).answer = "C"
          ∨ (sanitizeQuestion rawQuestionE).answer = "D")
      ∧ ((sanitizeQuestion rawQuestionE).qtype = "mcq"
          ∨ (sanitizeQuestion rawQuestionE).qtype = "assertion_reason")
      ∧ (∀ q : RawQuestion, q.answer = "E" → (sanitizeQuestion q).answer = "A")) :=
  ⟨by decide,
    C8_question_sanitization [] "medium" [rawQuestionE]
      (sanitizeQuestion rawQuestionE) (by decide)⟩

/-- Language instruction of `analyzeIndividualPage` (`part_002`, line 253). -/
def individualPageLanguageInstruction (outputLanguage : String) : String :=
  if outputLanguage == "tamil" then "Provide all responses in Tamil."
  else "Provide all responses in English."

/-- The prompt built by `analyzeIndividualPage` (`part_002`, lines
255-267): the page text is truncated to its first 15000 characters by
`textContent.substring(0, 15000)` before being embedded, so this is the
entire request content sent to the Analysis Client for one page. -/
def individualPagePrompt (textContent : String) (pageNumber : Nat)
    (outputLanguage : String) : String :=
  "\nAnalyze this content from page " ++ toString pageNumber ++
  " of a PDF for TNPSC exam preparation. " ++
  individualPageLanguageInstruction outputLanguage ++
  "\nContent: \"\"\"" ++ textContent.take 15000 ++ "\"\"\"\n\n" ++
  "Return a single, valid JSON object with this exact structure:\n" ++
  "\x7b\n" ++
  "  \"keyPoints\": [\"At least 8 short, crisp, memorizable points\"],\n" ++
  "  \"studyPoints\": [\x7b\"title\": \"string\", \"description\": \"string\", \"importance\": \"high|medium|low\", \"tnpscRelevance\": \"string\"\x7d],\n" ++
  "  \"summary\": \"Brief summary of the page content\",\n" ++
  "  \"tnpscRelevance\": \"How this page\u0027s content relates to TNPSC exams\",\n" ++
  "  \"tnpscCategories\": [\"Category1\", \"Category2\"]\n" ++
  "\x7d\n" ++
  "Focus on names, dates, places, events, definitions, and key data."

/-- C10: the per-page analysis request content depends on the extracted
page text only through its first 15000 characters, so any text beyond
15000 characters is silently truncated and never reaches the Analysis
Client. -/
theorem C10_prompt_truncation (s t : String) (pageNumber : Nat)
    (outputLanguage : String) (h : s.take 15000 = t.take 15000) :
    individualPagePrompt s pageNumber outputLanguage
      = individualPagePrompt t pageNumber outputLanguage := by
  simp only [individualPagePrompt, h]

/-- Witness for C10 at a concrete page text. -/
theorem C10_prompt_truncation_witness :
    ("page content".take 15000 = "page content".take 15000)
    ∧ individualPagePrompt "page content" 4 "english"
        = individualPagePrompt "page content" 4 "english" :=
  ⟨rfl, C10_prompt_truncation "page content" "page content" 4 "english" rfl⟩

/-- True on Analysis Client call events. -/
def Event.isClientCallEvent : Event → Bool
  | .clientCall _ _ _ => true
  | _ => false

/-- True on backoff or pacing delay events. -/
def Event.isDelayEvent : Event → Bool
  | .delayEvent _ => true
  | _ => false

/-- True on Persistent Record Store call events. -/
def Event.isStoreEvent : Event → Bool
  | .createCall _ _ => true
  | .updateCall _ _ _ => true
  | _ => false

/-- True on `saveStudyHistory` (create) call events. -/
def Event.isCreate : Event → Bool
  | .createCall _ _ => true
  | _ => false

/-- True on create call events for which the store returned an id. -/
def Event.isSuccessfulCreate : Event → Bool
  | .createCall (some _) _ => true
  | _ => false

/-- True on `updateStudyHistory` (update) call events. -/
def Event.isUpdate : Event → Bool
  | .updateCall _ _ _ => true
  | _ => false

/-- Looking up the replaced key after an in-place `Map.set` finds the new
entry. -/
lemma find_map_replace (k : Nat) (v : PageAnalysis) :
    ∀ (m : List (Nat × PageAnalysis)), (m.any (fun p => p.1 == k)) = true →
      (m.map (fun p => if p.1 == k then (k, v) else p)).find? (fun p => p.1 == k)
        = some (k, v)
  | [], h => by simp at h
  | q :: rest, h => by
    by_cases hq : (q.1 == k) = true
    · rw [List.map_cons, if_pos hq, List.find?_cons_of_pos _ (by simp)]
    · have hrest : (rest.any (fun p => p.1 == k)) = true := by
        simpa [List.any_cons, hq] using h
      rw [List.map_cons, if_neg hq, List.find?_cons_of_neg _ (by simpa using hq)]
      exact find_map_replace k v rest hrest

/-- A search that fails on the first list continues into the second. -/
lemma find_append_of_none {l₁ l₂ : List (Nat × PageAnalysis)}
    {p : Nat × PageAnalysis → Bool} (h : l₁.find? p = none) :
    (l₁ ++ l₂).find? p = l₂.find? p := by
  induction l₁ with
  | nil => simp
  | cons q rest ih =>
    rcases List.find?_eq_none.1 h q (by simp) with hq
    have hrest : rest.find? p = none := by
      rw [List.find?_cons_of_neg] at h
      · exact h
      · simpa using hq
    simp [List.find?_cons_of_neg, hq, ih hrest]

/-- `Map.get` after `Map.set` of the same key returns the new value. -/
lemma MapMod.get_set_self (m : List (Nat × PageAnalysis)) (k : Nat)
    (v : PageAnalysis) : MapMod.get (MapMod.set m k v) k = some v := by
  unfold MapMod.set
  by_cases h : (m.any (fun p => p.1 == k)) = true
  · rw [if_pos h]
    unfold MapMod.get
    rw [find_map_replace k v m h]
    rfl
  · rw [if_neg h]
    unfold MapMod.get
    have hnone : m.find? (fun p => p.1 == k) = none := by
      rw [List.find?_eq_none]
      intro q hq
      intro hcontra
      exact h (List.any_eq_true.2 ⟨q, hq, hcontra⟩)
    rw [find_append_of_none hnone]
    simp [List.find?]

/-- The value just written by `Map.set` is among the map values. -/
lemma mem_values_set (m : List (Nat × PageAnalysis)) (k : Nat)
    (v : PageAnalysis) : v ∈ MapMod.values (MapMod.set m k v) := by
  unfold MapMod.set
  by_cases h : (m.any (fun p => p.1 == k)) = true
  · rw [if_pos h]
    obtain ⟨q, hq, hqk⟩ := List.any_eq_true.1 h
    unfold MapMod.values
    have hmem : (k, v) ∈ m.map (fun p => if p.1 == k then (k, v) else p) :=
      List.mem_map.2 ⟨q, hq, by simp [hqk]⟩
    exact List.mem_map.2 ⟨(k, v), hmem, rfl⟩
  · rw [if_neg h]
    unfold MapMod.values
    simp

/-- Store synchronization never touches the page map. -/
lemma sync_pageAnalyses (store : Store) (w : World) (payload : AnalysisResult) :
    (syncHistoryRecord store w payload).pageAnalyses = w.pageAnalyses := by
  unfold syncHistoryRecord
  repeat' split
  all_goals rfl

/-- Store synchronization performs no waits. -/
lemma sync_time (store : Store) (w : World) (payload : AnalysisResult) :
    (syncHistoryRecord store w payload).time = w.time := by
  unfold syncHistoryRecord
  repeat' split
  all_goals rfl

/-- Store synchronization appends exactly its store events to the trace. -/
lemma sync_events_shape (store : Store) (w : World) (payload : AnalysisResult) :
    ∃ Δ, (syncHistoryRecord store w payload).events = w.events ++ Δ
      ∧ Δ.all Event.isStoreEvent = true := by
  unfold syncHistoryRecord
  repeat' split
  all_goals exact ⟨_, rfl, by simp [Event.isStoreEvent]⟩

/-- The per-page consolidation never touches the page map. -/
lemma saveFor_pageAnalyses (env : Env) (store : Store) (w : World)
    (p : Nat) (pa : PageAnalysis) :
    (saveConsolidatedHistoryForPage env store w p pa).pageAnalyses
      = w.pageAnalyses := by
  unfold saveConsolidatedHistoryForPage
  split
  · rfl
  · split
    · rfl
    · exact sync_pageAnalyses store w _

/-- The per-page consolidation performs no waits. -/
lemma saveFor_time (env : Env) (store : Store) (w : World)
    (p : Nat) (pa : PageAnalysis) :
    (saveConsolidatedHistoryForPage env store w p pa).time = w.time := by
  unfold saveConsolidatedHistoryForPage
  split
  · rfl
  · split
    · rfl
    · exact sync_time store w _

/-- The per-page consolidation appends only store events to the trace. -/
lemma saveFor_events_shape (env : Env) (store : Store) (w : World)
    (p : Nat) (pa : PageAnalysis) :
    ∃ Δ, (saveConsolidatedHistoryForPage env store w p pa).events = w.events ++ Δ
      ∧ Δ.all Event.isStoreEvent = true := by
  unfold saveConsolidatedHistoryForPage
  split
  · exact ⟨[], by simp⟩
  · split
    · exact ⟨[], by simp⟩
    · exact sync_events_shape store w _

/-- Appending store events does not change a filter that rejects store
events. -/
lemma filter_append_store {q : Event → Bool} {Δ : List Event}
    (hΔ : Δ.all Event.isStoreEvent = true)
    (hq : ∀ e, Event.isStoreEvent e = true → q e = false) (l : List Event) :
    (l ++ Δ).filter q = l.filter q := by
  rw [List.filter_append]
  have : Δ.filter q = [] := by
    rw [List.filter_eq_nil_iff]
    intro e he
    simp [hq e (by simpa using List.all_eq_true.1 hΔ e he)]
  simp [this]

/-- Filters that reject store events see through the per-page
consolidation. -/
lemma saveFor_filter (env : Env) (store : Store) (w : World)
    (p : Nat) (pa : PageAnalysis) (q : Event → Bool)
    (hq : ∀ e, Event.isStoreEvent e = true → q e = false) :
    ((saveConsolidatedHistoryForPage env store w p pa).events.filter q)
      = w.events.filter q := by
  obtain ⟨Δ, hev, hΔ⟩ := saveFor_events_shape env store w p pa
  rw [hev, filter_append_store hΔ hq]

/-- Retry-loop step: a failure whose message does not include 429
terminates the loop at once, after recording just that one client call. -/
lemma analyzePageGo_terminal (env : Env) (store : Store) (page fuel delay : Nat)
    (w : World) (m : String)
    (hblank : isBlankText (env.extract page) = false)
    (hcli : env.client page (maxRetries - (fuel + 1)) = .failure m)
    (h429 : strIncludes m "429" = false) :
    analyzePageGo env store page (fuel + 1) delay w
      = ({ w with
            events := w.events
              ++ [.clientCall page (maxRetries - (fuel + 1)) w.time] }, false) := by
  simp [analyzePageGo, hblank, hcli, h429]

/-- Retry-loop step: a failure whose message includes 429, with attempts
remaining, waits for the current delay and retries with the delay
doubled. -/
lemma analyzePageGo_retry (env : Env) (store : Store) (page fuel delay : Nat)
    (w : World) (m : String)
    (hblank : isBlankText (env.extract page) = false)
    (hcli : env.client page (maxRetries - (fuel + 2)) = .failure m)
    (h429 : strIncludes m "429" = true) :
    analyzePageGo env store page (fuel + 2) delay w
      = analyzePageGo env store page (fuel + 1) (delay * 2)
          { w with
              time := w.time + delay,
              events := w.events
                ++ [.clientCall page (maxRetries - (fuel + 2)) w.time,
                    .delayEvent delay] } := by
  simp [analyzePageGo, hblank, hcli, h429]

/-- Retry-loop step: a successful client call stores the completed page,
records the call and the completion, and runs the per-page
consolidation. -/
lemma analyzePageGo_success (env : Env) (store : Store) (page fuel delay : Nat)
    (w : World) (ca : ClientAnalysis)
    (hblank : isBlankText (env.extract page) = false)
    (hcli : env.client page (maxRetries - (fuel + 1)) = .success ca) :
    analyzePageGo env store page (fuel + 1) delay w
      = (saveConsolidatedHistoryForPage env store
          { w with
              pageAnalyses := MapMod.set w.pageAnalyses page (toPageAnalysis page ca),
              events := w.events
                ++ [.clientCall page (maxRetries - (fuel + 1)) w.time,
                    .pageCompleted page] }
          page (toPageAnalysis page ca), true) := by
  simp [analyzePageGo, hblank, hcli]

/-- Retry-loop step: blank page text completes the page synchronously with
the synthesized empty analysis and no client call. -/
lemma analyzePageGo_blank (env : Env) (store : Store) (page fuel delay : Nat)
    (w : World) (hblank : isBlankText (env.extract page) = true) :
    analyzePageGo env store page (fuel + 1) delay w
      = ({ w with
            pageAnalyses := MapMod.set w.pageAnalyses page (emptyAnalysis page),
            events := w.events ++ [.pageCompleted page] }, true) := by
  simp [analyzePageGo, hblank]

/-- A store oracle that always succeeds. -/
def storeOk : Store := { createResult := fun _ => some "H1", updateOk := fun _ => true }

/-- C3: the `analyzePage` retry loop re-attempts the Analysis Client call
only when the failure message includes the rate-limited signal "429": at
any point of the loop, a failure without "429" terminates the unit with an
error immediately, recording exactly that one further client call and
issuing no further client calls for the invocation; in particular a first
attempt failing without "429" makes the whole `analyzePage` call fail
after a single client call. -/
theorem C3_terminal_on_non429 (env : Env) (store : Store)
    (page fuel delay : Nat) (w : World) (m : String)
    (hblank : isBlankText (env.extract page) = false)
    (h429 : strIncludes m "429" = false) :
    (env.client page (maxRetries - (fuel + 1)) = .failure m →
      analyzePageGo env store page (fuel + 1) delay w
        = ({ w with
              events := w.events
                ++ [.clientCall page (maxRetries - (fuel + 1)) w.time] }, false))
    ∧ (pageIsAnalyzed w.pageAnalyses page = false →
        env.client page 0 = .failure m →
        analyzePage env store w page
          = ({ w with events := w.events ++ [.clientCall page 0 w.time] }, false)) := by
  constructor
  · intro hcli
    exact analyzePageGo_terminal env store page fuel delay w m hblank hcli h429
  · intro hskip hcli
    unfold analyzePage
    rw [if_neg (by simp [hskip])]
    have := analyzePageGo_terminal env store page 2 2000 w m hblank
      (by simpa [maxRetries] using hcli) h429
    simpa [maxRetries] using this

/-- Environment whose client always fails with a non-429 error. -/
def c3Env : Env :=
  { fileName := "doc.pdf", totalPages := 1, user := true,
    extract := fun _ => "content", client := fun _ _ => .failure "500 Internal" }

/-- Witness for C3 at a concrete non-429 failure. -/
theorem C3_terminal_on_non429_witness :
    (isBlankText (c3Env.extract 1) = false
      ∧ strIncludes "500 Internal" "429" = false
      ∧ pageIsAnalyzed initialWorld.pageAnalyses 1 = false
      ∧ c3Env.client 1 0 = .failure "500 Internal")
    ∧ analyzePage c3Env storeOk initialWorld 1
        = ({ initialWorld with
              events := initialWorld.events ++ [Event.clientCall 1 0 initialWorld.time] },
            false) :=
  ⟨⟨by decide, by decide, by decide, by decide⟩,
   (C3_terminal_on_non429 c3Env storeOk 1 2 2000 initialWorld "500 Internal"
      (by decide) (by decide)).2 (by decide) (by decide)⟩

/-- C6: a unit whose extracted text is blank completes with zero Analysis
Client calls: `analyzePage` synthesizes a completed analysis whose key
points and study points are empty and marks the unit complete, and any
later `analyzePage` on a completed unit is a no-op, so the unit is never
automatically re-requested. -/
theorem C6_blank_unit (env : Env) (store : Store) (w : World) (page : Nat)
    (hblank : isBlankText (env.extract page) = true)
    (hskip : pageIsAnalyzed w.pageAnalyses page = false) :
    analyzePage env store w page
      = ({ w with
            pageAnalyses := MapMod.set w.pageAnalyses page (emptyAnalysis page),
            events := w.events ++ [.pageCompleted page] }, true)
    ∧ (emptyAnalysis page).keyPoints = []
    ∧ (emptyAnalysis page).studyPoints = []
    ∧ (emptyAnalysis page).isAnalyzed = true
    ∧ pageIsAnalyzed (MapMod.set w.pageAnalyses page (emptyAnalysis page)) page = true
    ∧ (∀ w2 : World, pageIsAnalyzed w2.pageAnalyses page = true →
        analyzePage env store w2 page = (w2, true)) := by
  refine ⟨?_, rfl, rfl, rfl, ?_, ?_⟩
  · unfold analyzePage
    rw [if_neg (by simp [hskip])]
    exact analyzePageGo_blank env store page 2 2000 w hblank
  · unfold pageIsAnalyzed
    rw [MapMod.get_set_self]
    rfl
  · intro w2 h2
    unfold analyzePage
    rw [if_pos h2]

/-- Environment whose extractor returns only whitespace. -/
def c6Env : Env :=
  { fileName := "doc.pdf", totalPages := 1, user := true,
    extract := fun _ => " 
  ", client := fun _ _ => .failure "unused" }

/-- Witness for C6 at a concrete blank page. -/
theorem C6_blank_unit_witness :
    (isBlankText (c6Env.extract 1) = true
      ∧ pageIsAnalyzed initialWorld.pageAnalyses 1 = false)
    ∧ analyzePage c6Env storeOk initialWorld 1
        = ({ initialWorld with
              pageAnalyses := MapMod.set initialWorld.pageAnalyses 1 (emptyAnalysis 1),
              events := initialWorld.events ++ [Event.pageCompleted 1] }, true) :=
  ⟨⟨by decide, by decide⟩,
   (C6_blank_unit c6Env storeOk initialWorld 1 (by decide) (by decide)).1⟩

/-- Store events are not client-call events. -/
lemma storeEvent_not_clientCall (e : Event)
    (h : Event.isStoreEvent e = true) : Event.isClientCallEvent e = false := by
  cases e <;> simp_all [Event.isStoreEvent, Event.isClientCallEvent]

/-- Store events are not delay events. -/
lemma storeEvent_not_delay (e : Event)
    (h : Event.isStoreEvent e = true) : Event.isDelayEvent e = false := by
  cases e <;> simp_all [Event.isStoreEvent, Event.isDelayEvent]

/-- C5: with initial backoff 2000 ms and at most 3 attempts, a unit whose
first client call fails rate-limited (message includes "429") and whose
second call succeeds ends completed after exactly two client calls, the
second issued 2000 ms after the first (so at least 2000 ms later), with
one 2000 ms backoff wait; and when a second rate-limited failure occurs
the backoff doubles, the waits being 2000 ms then 4000 ms. -/
theorem C5_rate_limited_retry (env : Env) (store : Store) (w : World)
    (page : Nat) (m : String) (ca : ClientAnalysis)
    (hskip : pageIsAnalyzed w.pageAnalyses page = false)
    (hblank : isBlankText (env.extract page) = false)
    (h0 : env.client page 0 = .failure m)
    (h429 : strIncludes m "429" = true)
    (h1 : env.client page 1 = .success ca) :
    (analyzePage env store w page).2 = true
    ∧ pageIsAnalyzed (analyzePage env store w page).1.pageAnalyses page = true
    ∧ (analyzePage env store w page).1.events.filter Event.isClientCallEvent
        = w.events.filter Event.isClientCallEvent
          ++ [.clientCall page 0 w.time, .clientCall page 1 (w.time + 2000)]
    ∧ (analyzePage env store w page).1.events.filter Event.isDelayEvent
        = w.events.filter Event.isDelayEvent ++ [.delayEvent 2000]
    ∧ (∀ (m2 : String) (env2 : Env), strIncludes m2 "429" = true →
        env2.extract = env.extract →
        env2.client page 0 = .failure m →
        env2.client page 1 = .failure m2 →
        env2.client page 2 = .success ca →
        (analyzePage env2 store w page).1.events.filter Event.isDelayEvent
          = w.events.filter Event.isDelayEvent
            ++ [.delayEvent 2000, .delayEvent 4000]) := by
  have hrun : analyzePage env store w page
      = (saveConsolidatedHistoryForPage env store
          { w with
              time := w.time + 2000,
              pageAnalyses := MapMod.set w.pageAnalyses page (toPageAnalysis page ca),
              events := w.events
                ++ [.clientCall page 0 w.time, .delayEvent 2000,
                    .clientCall page 1 (w.time + 2000), .pageCompleted page] }
          page (toPageAnalysis page ca), true) := by
    unfold analyzePage
    rw [if_neg (by simp [hskip])]
    simp [analyzePageGo, maxRetries, hblank, h0, h429, h1]
  refine ⟨?_, ?_, ?_, ?_, ?_⟩
  · rw [hrun]
  · rw [hrun]
    simp only [saveFor_pageAnalyses]
    unfold pageIsAnalyzed
    rw [MapMod.get_set_self]
    rfl
  · rw [hrun]
    simp only []
    rw [saveFor_filter _ _ _ _ _ _ storeEvent_not_clientCall]
    simp [List.filter_append, Event.isClientCallEvent]
  · rw [hrun]
    simp only []
    rw [saveFor_filter _ _ _ _ _ _ storeEvent_not_delay]
    simp [List.filter_append, Event.isDelayEvent]
  · intro m2 env2 h4292 hex h20 h21 h22
    have hrun2 : analyzePage env2 store w page
        = (saveConsolidatedHistoryForPage env2 store
            { w with
                time := w.time + 2000 + 4000,
                pageAnalyses := MapMod.set w.pageAnalyses page (toPageAnalysis page ca),
                events := w.events
                  ++ [.clientCall page 0 w.time, .delayEvent 2000,
                      .clientCall page 1 (w.time + 2000), .delayEvent 4000,
                      .clientCall page 2 (w.time + 2000 + 4000), .pageCompleted page] }
            page (toPageAnalysis page ca), true) := by
      unfold analyzePage
      rw [if_neg (by simp [hskip])]
      have hblank2 : isBlankText (env2.extract page) = false := by rw [hex]; exact hblank
      simp [analyzePageGo, maxRetries, hblank2, h20, h21, h22, h429, h4292]
    rw [hrun2]
    simp only []
    rw [saveFor_filter _ _ _ _ _ _ storeEvent_not_delay]
    simp [List.filter_append, Event.isDelayEvent]

/-- Environment whose client fails rate-limited once and then succeeds. -/
def c5Env : Env :=
  { fileName := "doc.pdf", totalPages := 1, user := true,
    extract := fun _ => "content",
    client := fun _ attempt =>
      if attempt == 0 then .failure "Error 429 rate limited"
      else .success
        { keyPoints := ["K"], studyPoints := [], summary := "S",
          tnpscRelevance := "R", tnpscCategories := [] } }

/-- Witness for C5 at a concrete rate-limited-then-success run. -/
theorem C5_rate_limited_retry_witness :
    (pageIsAnalyzed initialWorld.pageAnalyses 1 = false
      ∧ isBlankText (c5Env.extract 1) = false
      ∧ c5Env.client 1 0 = .failure "Error 429 rate limited"
      ∧ strIncludes "Error 429 rate limited" "429" = true
      ∧ c5Env.client 1 1 = .success
          { keyPoints := ["K"], studyPoints := [], summary := "S",
            tnpscRelevance := "R", tnpscCategories := [] })
    ∧ ((analyzePage c5Env storeOk initialWorld 1).2 = true
      ∧ (analyzePage c5Env storeOk initialWorld 1).1.events.filter Event.isClientCallEvent
          = initialWorld.events.filter Event.isClientCallEvent
            ++ [Event.clientCall 1 0 initialWorld.time,
                Event.clientCall 1 1 (initialWorld.time + 2000)]) :=
  ⟨⟨by decide, by decide, by decide, by decide, by decide⟩,
   (C5_rate_limited_retry c5Env storeOk initialWorld 1 "Error 429 rate limited"
      { keyPoints := ["K"], studyPoints := [], summary := "S",
        tnpscRelevance := "R", tnpscCategories := [] }
      (by decide) (by decide) (by decide) (by decide) (by decide)).1,
   (C5_rate_limited_retry c5Env storeOk initialWorld 1 "Error 429 rate limited"
      { keyPoints := ["K"], studyPoints := [], summary := "S",
        tnpscRelevance := "R", tnpscCategories := [] }
      (by decide) (by decide) (by decide) (by decide) (by decide)).2.2.1⟩

/-- C7: when a session recovers its Cumulative Record identifier from the
session-scoped cache (keyed by file name and size) through the state
initializer, the next consolidation issues an `updateStudyHistory` call
and no `saveStudyHistory` call, and the identifier is unchanged. -/
theorem C7_cache_recovery (sessionCache : List (String × String))
    (fileName : String) (fileSize : Nat) (v : String)
    (hrec : initStudyHistoryId none sessionCache fileName fileSize = some v)
    (env : Env) (store : Store) (w : World)
    (hw : w.studyHistoryId = initStudyHistoryId none sessionCache fileName fileSize)
    (hu : env.user = true) (p : Nat) (pa : PageAnalysis)
    (hpa : pa.isAnalyzed = true) :
    (saveConsolidatedHistoryForPage env store w p pa).events.countP Event.isCreate
        = w.events.countP Event.isCreate
    ∧ (saveConsolidatedHistoryForPage env store w p pa).events.countP Event.isUpdate
        = w.events.countP Event.isUpdate + 1
    ∧ (saveConsolidatedHistoryForPage env store w p pa).studyHistoryId = some v := by
  have hid : w.studyHistoryId = some v := by rw [hw, hrec]
  have hne : (analyzedPagesForSave w p pa).isEmpty = false := by
    have hmem : pa ∈ analyzedPagesForSave w p pa := by
      unfold analyzedPagesForSave
      exact List.mem_filter.2 ⟨mem_values_set _ _ _, by simp [hpa]⟩
    cases hE : (analyzedPagesForSave w p pa).isEmpty
    · rfl
    · rw [List.isEmpty_iff] at hE
      rw [hE] at hmem
      simp at hmem
  unfold saveConsolidatedHistoryForPage
  rw [if_neg (by simp [hu]), if_neg (by simp [hne])]
  unfold syncHistoryRecord
  rw [hid]
  refine ⟨?_, ?_, rfl⟩
  · simp [List.countP_append, Event.isCreate]
  · simp [List.countP_append, Event.isUpdate]

/-- A session cache holding an identifier for the open document. -/
def c7Cache : List (String × String) := [(sessionKey "doc.pdf" 100, "H7")]

/-- A completed page used in the recovery witness. -/
def c7Page : PageAnalysis :=
  { pageNumber := 1, keyPoints := ["K"], studyPoints := [], summary := "S",
    tnpscRelevance := "R", isAnalyzed := true }

/-- A world whose identifier was recovered from the session cache. -/
def c7World : World :=
  { initialWorld with
      studyHistoryId := initStudyHistoryId none c7Cache "doc.pdf" 100 }

/-- Environment for the recovery witness. -/
def c7Env : Env :=
  { fileName := "doc.pdf", totalPages := 1, user := true,
    extract := fun _ => "text", client := fun _ _ => .failure "unused" }

/-- Witness for C7 at a concrete recovered identifier. -/
theorem C7_cache_recovery_witness :
    (initStudyHistoryId none c7Cache "doc.pdf" 100 = some "H7"
      ∧ c7World.studyHistoryId = initStudyHistoryId none c7Cache "doc.pdf" 100
      ∧ c7Env.user = true
      ∧ c7Page.isAnalyzed = true)
    ∧ ((saveConsolidatedHistoryForPage c7Env storeOk c7World 1 c7Page).events.countP
          Event.isCreate = c7World.events.countP Event.isCreate
      ∧ (saveConsolidatedHistoryForPage c7Env storeOk c7World 1 c7Page).events.countP
          Event.isUpdate = c7World.events.countP Event.isUpdate + 1
      ∧ (saveConsolidatedHistoryForPage c7Env storeOk c7World 1 c7Page).studyHistoryId
          = some "H7") :=
  ⟨⟨by decide, rfl, rfl, rfl⟩,
   C7_cache_recovery c7Cache "doc.pdf" 100 "H7" (by decide) c7Env storeOk c7World
     rfl rfl 1 c7Page rfl⟩

/-- Retry-loop step: a rate-limited failure on the final attempt also
terminates the loop with the error. -/
lemma analyzePageGo_exhausted (env : Env) (store : Store) (page delay : Nat)
    (w : World) (m : String)
    (hblank : isBlankText (env.extract page) = false)
    (hcli : env.client page (maxRetries - 1) = .failure m) :
    analyzePageGo env store page 1 delay w
      = ({ w with
            events := w.events ++ [.clientCall page (maxRetries - 1) w.time] },
          false) := by
  simp [analyzePageGo, hblank, hcli]

/-- The effect-triggered consolidation never touches the page map. -/
lemma saveFull_pageAnalyses (env : Env) (store : Store) (w : World) :
    (saveConsolidatedHistory env store w).pageAnalyses = w.pageAnalyses := by
  unfold saveConsolidatedHistory
  split
  · rfl
  · split
    · rfl
    · exact sync_pageAnalyses store w _

/-- The retry loop's page map result and success flag do not depend on the
store oracle: consolidation outcomes never feed back into analysis. -/
lemma analyzePageGo_store_independent (env : Env) (s₁ s₂ : Store) (page : Nat) :
    ∀ (fuel delay : Nat) (w : World),
      ((analyzePageGo env s₁ page fuel delay w).1.pageAnalyses
        = (analyzePageGo env s₂ page fuel delay w).1.pageAnalyses)
      ∧ ((analyzePageGo env s₁ page fuel delay w).2
        = (analyzePageGo env s₂ page fuel delay w).2)
  | 0, _, _ => ⟨rfl, rfl⟩
  | fuel + 1, delay, w => by
    by_cases hb : isBlankText (env.extract page) = true
    · rw [analyzePageGo_blank env s₁ page fuel delay w hb,
        analyzePageGo_blank env s₂ page fuel delay w hb]
      exact ⟨rfl, rfl⟩
    · have hb' : isBlankText (env.extract page) = false := by simpa using hb
      cases hcli : env.client page (maxRetries - (fuel + 1)) with
      | success ca =>
        rw [analyzePageGo_success env s₁ page fuel delay w ca hb' hcli,
          analyzePageGo_success env s₂ page fuel delay w ca hb' hcli]
        exact ⟨by rw [saveFor_pageAnalyses, saveFor_pageAnalyses], rfl⟩
      | failure m =>
        by_cases h4 : strIncludes m "429" = true
        · match fuel with
          | 0 =>
            rw [analyzePageGo_exhausted env s₁ page delay w m hb' hcli,
              analyzePageGo_exhausted env s₂ page delay w m hb' hcli]
            exact ⟨rfl, rfl⟩
          | f + 1 =>
            rw [analyzePageGo_retry env s₁ page f delay w m hb' hcli h4,
              analyzePageGo_retry env s₂ page f delay w m hb' hcli h4]
            exact analyzePageGo_store_independent env s₁ s₂ page (f + 1) (delay * 2) _
        · have h4' : strIncludes m "429" = false := by simpa using h4
          rw [analyzePageGo_terminal env s₁ page fuel delay w m hb' hcli h4',
            analyzePageGo_terminal env s₂ page fuel delay w m hb' hcli h4']
          exact ⟨rfl, rfl⟩

/-- C9: persistence failures are isolated from analysis: for any two store
oracles (for example one that always fails and one that always succeeds),
`analyzePage` produces the same page map and the same success flag, so a
store error neither propagates to the analysis caller nor rolls back
in-memory progress; moreover neither consolidation function ever modifies
the page map. -/
theorem C9_store_failures_isolated (env : Env) (s₁ s₂ : Store) (w : World)
    (page p2 : Nat) (pa : PageAnalysis) :
    ((analyzePage env s₁ w page).1.pageAnalyses
        = (analyzePage env s₂ w page).1.pageAnalyses)
    ∧ ((analyzePage env s₁ w page).2 = (analyzePage env s₂ w page).2)
    ∧ (saveConsolidatedHistoryForPage env s₁ w p2 pa).pageAnalyses = w.pageAnalyses
    ∧ (saveConsolidatedHistory env s₁ w).pageAnalyses = w.pageAnalyses := by
  refine ⟨?_, ?_, saveFor_pageAnalyses env s₁ w p2 pa, saveFull_pageAnalyses env s₁ w⟩
  · unfold analyzePage
    by_cases h : pageIsAnalyzed w.pageAnalyses page = true
    · rw [if_pos h, if_pos h]
    · rw [if_neg h, if_neg h]
      exact (analyzePageGo_store_independent env s₁ s₂ page maxRetries 2000 w).1
  · unfold analyzePage
    by_cases h : pageIsAnalyzed w.pageAnalyses page = true
    · rw [if_pos h, if_pos h]
    · rw [if_neg h, if_neg h]
      exact (analyzePageGo_store_independent env s₁ s₂ page maxRetries 2000 w).2

/-- The page of a client-call event, when the event is one. -/
def Event.clientPageOf : Event → Option Nat
  | .clientCall page _ _ => some page
  | _ => none

/-- True on page-completion events. -/
def Event.isPageCompletedEvent : Event → Bool
  | .pageCompleted _ => true
  | _ => false

/-- True on the progress-trace events: page completions and delays. -/
def isTraceEvent (e : Event) : Bool :=
  e.isPageCompletedEvent || e.isDelayEvent

/-- The per-page consolidation leaves the progress trace unchanged. -/
lemma saveFor_filter_trace (env : Env) (store : Store) (w : World)
    (p : Nat) (pa : PageAnalysis) :
    ((saveConsolidatedHistoryForPage env store w p pa).events.filter isTraceEvent)
      = w.events.filter isTraceEvent :=
  saveFor_filter env store w p pa isTraceEvent (fun e he => by
    cases e <;> simp_all [Event.isStoreEvent, isTraceEvent,
      Event.isPageCompletedEvent, Event.isDelayEvent])

/-- Appending store events does not add client-call pages. -/
lemma filterMap_append_store {Δ : List Event}
    (hΔ : Δ.all Event.isStoreEvent = true) (l : List Event) :
    (l ++ Δ).filterMap Event.clientPageOf = l.filterMap Event.clientPageOf := by
  rw [List.filterMap_append]
  have : Δ.filterMap Event.clientPageOf = [] := by
    rw [List.filterMap_eq_nil_iff]
    intro e he
    have := List.all_eq_true.1 hΔ e he
    cases e <;> simp_all [Event.isStoreEvent, Event.clientPageOf]
  simp [this]

/-- The per-page consolidation issues no client calls. -/
lemma saveFor_filterMap_clientPage (env : Env) (store : Store) (w : World)
    (p : Nat) (pa : PageAnalysis) :
    ((saveConsolidatedHistoryForPage env store w p pa).events.filterMap
        Event.clientPageOf)
      = w.events.filterMap Event.clientPageOf := by
  obtain ⟨Δ, hev, hΔ⟩ := saveFor_events_shape env store w p pa
  rw [hev, filterMap_append_store hΔ]

/-- C4: in a batch run over units 1..5 where unit 2 is already complete,
units 1 and 3 succeed and unit 4 fails terminally (non-429), the batch
attempts exactly units 1, 3, 4 in ascending order (skipping the complete
unit 2, never attempting unit 5), leaves units 1, 2, 3 completed and
units 4 and 5 absent from the page map, reports that unit 4 failed, and
inserts a 1000 ms delay after each successful unit analysis, so
successive successful analyses are separated by a 1000 ms delay. -/
theorem C4_batch_stops_at_failure (env : Env) (store : Store) (w : World)
    (pa2 : PageAnalysis) (ca1 ca3 : ClientAnalysis) (m : String)
    (henv : env.totalPages = 5)
    (hmap : w.pageAnalyses = [(2, pa2)])
    (hpa2 : pa2.isAnalyzed = true)
    (hev : w.events = [])
    (hblank1 : isBlankText (env.extract 1) = false)
    (hblank3 : isBlankText (env.extract 3) = false)
    (hblank4 : isBlankText (env.extract 4) = false)
    (h1 : env.client 1 0 = .success ca1)
    (h3 : env.client 3 0 = .success ca3)
    (h4 : env.client 4 0 = .failure m)
    (h4m : strIncludes m "429" = false) :
    (analyzeAllPages env store w).2 = some 4
    ∧ pageIsAnalyzed (analyzeAllPages env store w).1.pageAnalyses 1 = true
    ∧ pageIsAnalyzed (analyzeAllPages env store w).1.pageAnalyses 2 = true
    ∧ pageIsAnalyzed (analyzeAllPages env store w).1.pageAnalyses 3 = true
    ∧ MapMod.get (analyzeAllPages env store w).1.pageAnalyses 4 = none
    ∧ MapMod.get (analyzeAllPages env store w).1.pageAnalyses 5 = none
    ∧ (analyzeAllPages env store w).1.events.filterMap Event.clientPageOf = [1, 3, 4]
    ∧ (analyzeAllPages env store w).1.events.filter isTraceEvent
        = [.pageCompleted 1, .delayEvent 1000, .pageCompleted 3, .delayEvent 1000] := by
  have hrange : List.range' 1 env.totalPages = [1, 2, 3, 4, 5] := by
    rw [henv]
    rfl
  refine ⟨?_, ?_, ?_, ?_, ?_, ?_, ?_, ?_⟩ <;>
    · unfold analyzeAllPages
      rw [hrange]
      simp [analyzeAllPagesGo, analyzePage, analyzePageGo, maxRetries,
        pageIsAnalyzed, MapMod.get, MapMod.set, hmap, hpa2, hev, henv,
        hblank1, hblank3, hblank4, h1, h3, h4, h4m,
        saveFor_pageAnalyses, saveFor_time, saveFor_filter_trace,
        saveFor_filterMap_clientPage, List.filter_append, List.filterMap_append,
        isTraceEvent, Event.clientPageOf, Event.isPageCompletedEvent,
        Event.isDelayEvent, toPageAnalysis, List.find?]

/-- The pre-completed page 2 of the batch witness. -/
def c4pa2 : PageAnalysis :=
  { pageNumber := 2, keyPoints := ["K2"], studyPoints := [], summary := "S2",
    tnpscRelevance := "R2", isAnalyzed := true }

/-- Client response for page 1 in the batch witness. -/
def c4ca1 : ClientAnalysis :=
  { keyPoints := ["K1"], studyPoints := [], summary := "S1",
    tnpscRelevance := "R1", tnpscCategories := [] }

/-- Client response for page 3 in the batch witness. -/
def c4ca3 : ClientAnalysis :=
  { keyPoints := ["K3"], studyPoints := [], summary := "S3",
    tnpscRelevance := "R3", tnpscCategories := [] }

/-- Batch-witness environment: pages 1 and 3 succeed, page 4 fails
terminally. -/
def c4Env : Env :=
  { fileName := "doc.pdf", totalPages := 5, user := true,
    extract := fun _ => "content",
    client := fun page _ =>
      if page == 1 then .success c4ca1
      else if page == 3 then .success c4ca3
      else .failure "503 unavailable" }

/-- Batch-witness initial world with page 2 already complete. -/
def c4World : World := { initialWorld with pageAnalyses := [(2, c4pa2)] }

/-- Witness for C4 at a concrete batch run. -/
theorem C4_batch_stops_at_failure_witness :
    (c4Env.totalPages = 5
      ∧ c4World.pageAnalyses = [(2, c4pa2)]
      ∧ c4pa2.isAnalyzed = true
      ∧ c4World.events = []
      ∧ c4Env.client 1 0 = .success c4ca1
      ∧ c4Env.client 3 0 = .success c4ca3
      ∧ c4Env.client 4 0 = .failure "503 unavailable"
      ∧ strIncludes "503 unavailable" "429" = false)
    ∧ ((analyzeAllPages c4Env storeOk c4World).2 = some 4
      ∧ (analyzeAllPages c4Env storeOk c4World).1.events.filterMap
          Event.clientPageOf = [1, 3, 4]) :=
  ⟨⟨rfl, rfl, rfl, rfl, by decide, by decide, by decide, by decide⟩,
   (C4_batch_stops_at_failure c4Env storeOk c4World c4pa2 c4ca1 c4ca3
      "503 unavailable" rfl rfl rfl rfl (by decide) (by decide) (by decide)
      (by decide) (by decide) (by decide) (by decide)).1,
   (C4_batch_stops_at_failure c4Env storeOk c4World c4pa2 c4ca1 c4ca3
      "503 unavailable" rfl rfl rfl rfl (by decide) (by decide) (by decide)
      (by decide) (by decide) (by decide) (by decide)).2.2.2.2.2.2.1⟩

/-- True when no create call occurs anywhere after a successful create
call in the trace. -/
def noCreateAfterSuccess : List Event → Bool
  | [] => true
  | e :: rest =>
    if Event.isSuccessfulCreate e then rest.all (fun x => !(Event.isCreate x))
    else noCreateAfterSuccess rest

/-- A successful create event is a create event. -/
lemma sc_implies_create {e : Event}
    (h : Event.isSuccessfulCreate e = true) : Event.isCreate e = true := by
  cases e <;> simp_all [Event.isSuccessfulCreate, Event.isCreate]

/-- Successful creates are bounded by creates. -/
lemma countP_sc_le_create (l : List Event) :
    l.countP Event.isSuccessfulCreate ≤ l.countP Event.isCreate :=
  List.countP_mono_left (fun _ _ h => sc_implies_create h)

/-- A trace without create events trivially has no create after a
successful one. -/
lemma ncas_of_createfree :
    ∀ {Δ : List Event}, Δ.countP Event.isCreate = 0 →
      noCreateAfterSuccess Δ = true
  | [], _ => rfl
  | e :: rest, h => by
    rw [List.countP_cons] at h
    have hrest : rest.countP Event.isCreate = 0 := by omega
    have he : Event.isCreate e = false := by
      by_cases hc : Event.isCreate e = true
      · simp [hc] at h
      · simpa using hc
    have hsc : Event.isSuccessfulCreate e = false := by
      by_cases hs : Event.isSuccessfulCreate e = true
      · rw [sc_implies_create hs] at he
        exact absurd he (by simp)
      · simpa using hs
    simp only [noCreateAfterSuccess, hsc]
    simp [ncas_of_createfree hrest]

/-- Prepending a trace without successful creates preserves the
no-create-after-success property. -/
lemma ncas_append_left :
    ∀ {Δ₁ : List Event}, Δ₁.countP Event.isSuccessfulCreate = 0 →
      ∀ {Δ₂ : List Event}, noCreateAfterSuccess Δ₂ = true →
        noCreateAfterSuccess (Δ₁ ++ Δ₂) = true
  | [], _, Δ₂, h2 => by simpa
  | e :: rest, h1, Δ₂, h2 => by
    rw [List.countP_cons] at h1
    have hrest : rest.countP Event.isSuccessfulCreate = 0 := by omega
    have he : Event.isSuccessfulCreate e = false := by
      by_cases hs : Event.isSuccessfulCreate e = true
      · simp [hs] at h1
      · simpa using hs
    rw [List.cons_append]
    simp only [noCreateAfterSuccess, he]
    simp [ncas_append_left hrest h2]

/-- Appending a trace without creates preserves the
no-create-after-success property. -/
lemma ncas_append_right :
    ∀ {Δ₁ : List Event}, noCreateAfterSuccess Δ₁ = true →
      ∀ {Δ₂ : List Event}, Δ₂.countP Event.isCreate = 0 →
        noCreateAfterSuccess (Δ₁ ++ Δ₂) = true
  | [], _, Δ₂, h2 => by simpa using ncas_of_createfree h2
  | e :: rest, h1, Δ₂, h2 => by
    rw [List.cons_append]
    by_cases hs : Event.isSuccessfulCreate e = true
    · simp only [noCreateAfterSuccess, hs, if_pos] at h1 ⊢
      rw [List.all_append]
      refine Bool.and_eq_true_iff.2 ⟨by simpa using h1, ?_⟩
      rw [List.all_eq_true]
      intro x hx
      have := List.countP_eq_zero.1 h2 x hx
      simp_all
    · have hs' : Event.isSuccessfulCreate e = false := by simpa using hs
      simp only [noCreateAfterSuccess, hs'] at h1 ⊢
      simp at h1 ⊢
      exact ncas_append_right h1 h2

/-- Relation between the session identifier before and after a run and the
events the run appended: with the identifier set, it never changes and no
create is ever issued; with it unset, at most one successful create
occurs, the identifier ends set exactly when one does, and no create
follows a successful create. -/
def StoreDelta (idBefore idAfter : Option String) (Δ : List Event) : Prop :=
  match idBefore with
  | some v => idAfter = some v ∧ Δ.countP Event.isCreate = 0
  | none =>
      (idAfter = none ∧ Δ.countP Event.isSuccessfulCreate = 0
        ∧ noCreateAfterSuccess Δ = true)
      ∨ (∃ x, idAfter = some x ∧ Δ.countP Event.isSuccessfulCreate = 1
        ∧ noCreateAfterSuccess Δ = true)

/-- A run issuing no creates relates any identifier to itself. -/
lemma StoreDelta.of_createfree {i : Option String} {Δ : List Event}
    (h : Δ.countP Event.isCreate = 0) : StoreDelta i i Δ := by
  cases i with
  | none =>
    exact Or.inl ⟨rfl, Nat.le_zero.1 (h ▸ countP_sc_le_create Δ),
      ncas_of_createfree h⟩
  | some v => exact ⟨rfl, h⟩

/-- The empty run changes nothing. -/
lemma StoreDelta.nil (i : Option String) : StoreDelta i i [] :=
  StoreDelta.of_createfree rfl

/-- `StoreDelta` composes over consecutive runs. -/
lemma StoreDelta.trans {i₁ i₂ i₃ : Option String} {Δ₁ Δ₂ : List Event}
    (h₁ : StoreDelta i₁ i₂ Δ₁) (h₂ : StoreDelta i₂ i₃ Δ₂) :
    StoreDelta i₁ i₃ (Δ₁ ++ Δ₂) := by
  cases i₁ with
  | some v =>
    obtain ⟨rfl, hc₁⟩ := h₁
    obtain ⟨h3, hc₂⟩ := h₂
    exact ⟨h3, by rw [List.countP_append, hc₁, hc₂]⟩
  | none =>
    rcases h₁ with ⟨rfl, hsc₁, hn₁⟩ | ⟨x, rfl, hsc₁, hn₁⟩
    · rcases h₂ with ⟨h3, hsc₂, hn₂⟩ | ⟨y, h3, hsc₂, hn₂⟩
      · exact Or.inl ⟨h3, by rw [List.countP_append, hsc₁, hsc₂],
          ncas_append_left hsc₁ hn₂⟩
      · exact Or.inr ⟨y, h3, by rw [List.countP_append, hsc₁, hsc₂],
          ncas_append_left hsc₁ hn₂⟩
    · obtain ⟨h3, hc₂⟩ := h₂
      refine Or.inr ⟨x, h3, ?_, ncas_append_right hn₁ hc₂⟩
      rw [List.countP_append, hsc₁]
      have : Δ₂.countP Event.isSuccessfulCreate = 0 :=
        Nat.le_zero.1 (hc₂ ▸ countP_sc_le_create Δ₂)
      omega

/-- The store synchronization step satisfies `StoreDelta`: it updates when
the identifier is set, creates otherwise, and records the identifier
returned by a successful create. -/
lemma sync_storeDelta (store : Store) (w : World) (payload : AnalysisResult) :
    ∃ Δ, (syncHistoryRecord store w payload).events = w.events ++ Δ
      ∧ StoreDelta w.studyHistoryId
          (syncHistoryRecord store w payload).studyHistoryId Δ := by
  unfold syncHistoryRecord
  cases hid : w.studyHistoryId with
  | some v =>
    refine ⟨[.updateCall v (store.updateOk w.storeCalls) payload], rfl, ?_⟩
    exact ⟨rfl, by simp [Event.isCreate]⟩
  | none =>
    cases hcr : store.createResult w.storeCalls with
    | some nid =>
      refine ⟨[.createCall (some nid) payload], rfl, ?_⟩
      refine Or.inr ⟨nid, rfl, ?_, ?_⟩
      · simp [Event.isSuccessfulCreate]
      · simp [noCreateAfterSuccess, Event.isSuccessfulCreate, Event.isCreate]
    | none =>
      refine ⟨[.createCall none payload], rfl, ?_⟩
      refine Or.inl ⟨rfl, ?_, ?_⟩
      · simp [Event.isSuccessfulCreate]
      · simp [noCreateAfterSuccess, Event.isSuccessfulCreate]

/-- The per-page consolidation satisfies `StoreDelta`. -/
lemma saveFor_storeDelta (env : Env) (store : Store) (w : World)
    (p : Nat) (pa : PageAnalysis) :
    ∃ Δ, (saveConsolidatedHistoryForPage env store w p pa).events = w.events ++ Δ
      ∧ StoreDelta w.studyHistoryId
          (saveConsolidatedHistoryForPage env store w p pa).studyHistoryId Δ := by
  unfold saveConsolidatedHistoryForPage
  split
  · exact ⟨[], by simp, StoreDelta.nil _⟩
  · split
    · exact ⟨[], by simp, StoreDelta.nil _⟩
    · exact sync_storeDelta store w _

/-- The effect-triggered consolidation satisfies `StoreDelta`. -/
lemma saveFull_storeDelta (env : Env) (store : Store) (w : World) :
    ∃ Δ, (saveConsolidatedHistory env store w).events = w.events ++ Δ
      ∧ StoreDelta w.studyHistoryId
          (saveConsolidatedHistory env store w).studyHistoryId Δ := by
  unfold saveConsolidatedHistory
  split
  · exact ⟨[], by simp, StoreDelta.nil _⟩
  · split
    · exact ⟨[], by simp, StoreDelta.nil _⟩
    · exact sync_storeDelta store w _

/-- The whole retry loop satisfies `StoreDelta`: its only store
interaction is the single consolidation after a success. -/
lemma analyzePageGo_storeDelta (env : Env) (store : Store) (page : Nat) :
    ∀ (fuel delay : Nat) (w : World),
      ∃ Δ, (analyzePageGo env store page fuel delay w).1.events = w.events ++ Δ
        ∧ StoreDelta w.studyHistoryId
            (analyzePageGo env store page fuel delay w).1.studyHistoryId Δ
  | 0, _, w => ⟨[], by simp [analyzePageGo], StoreDelta.nil _⟩
  | fuel + 1, delay, w => by
    by_cases hb : isBlankText (env.extract page) = true
    · rw [analyzePageGo_blank env store page fuel delay w hb]
      exact ⟨[.pageCompleted page], rfl,
        StoreDelta.of_createfree (by simp [Event.isCreate])⟩
    · have hb' : isBlankText (env.extract page) = false := by simpa using hb
      cases hcli : env.client page (maxRetries - (fuel + 1)) with
      | success ca =>
        rw [analyzePageGo_success env store page fuel delay w ca hb' hcli]
        obtain ⟨Δs, hev, hsd⟩ := saveFor_storeDelta env store
          { w with
              pageAnalyses := MapMod.set w.pageAnalyses page (toPageAnalysis page ca),
              events := w.events
                ++ [.clientCall page (maxRetries - (fuel + 1)) w.time,
                    .pageCompleted page] }
          page (toPageAnalysis page ca)
        refine ⟨[.clientCall page (maxRetries - (fuel + 1)) w.time,
            .pageCompleted page] ++ Δs, ?_, ?_⟩
        · rw [hev]
          simp
        · exact StoreDelta.trans
            (StoreDelta.of_createfree (by simp [Event.isCreate])) hsd
      | failure m =>
        by_cases h4 : strIncludes m "429" = true
        · match fuel with
          | 0 =>
            rw [analyzePageGo_exhausted env store page delay w m hb' hcli]
            exact ⟨[.clientCall page (maxRetries - 1) w.time], rfl,
              StoreDelta.of_createfree (by simp [Event.isCreate])⟩
          | f + 1 =>
            rw [analyzePageGo_retry env store page f delay w m hb' hcli h4]
            obtain ⟨Δr, hev, hsd⟩ := analyzePageGo_storeDelta env store page
              (f + 1) (delay * 2)
              { w with
                  time := w.time + delay,
                  events := w.events
                    ++ [.clientCall page (maxRetries - (f + 2)) w.time,
                        .delayEvent delay] }
            refine ⟨[.clientCall page (maxRetries - (f + 2)) w.time,
                .delayEvent delay] ++ Δr, ?_, ?_⟩
            · rw [hev]
              simp
            · exact StoreDelta.trans
                (StoreDelta.of_createfree (by simp [Event.isCreate])) hsd
        · have h4' : strIncludes m "429" = false := by simpa using h4
          rw [analyzePageGo_terminal env store page fuel delay w m hb' hcli h4']
          exact ⟨[.clientCall page (maxRetries - (fuel + 1)) w.time], rfl,
            StoreDelta.of_createfree (by simp [Event.isCreate])⟩

/-- Every session operation satisfies `StoreDelta`. -/
lemma runOp_storeDelta (env : Env) (store : Store) (w : World) (op : SessionOp) :
    ∃ Δ, (runOp env store w op).events = w.events ++ Δ
      ∧ StoreDelta w.studyHistoryId (runOp env store w op).studyHistoryId Δ := by
  cases op with
  | analyze page =>
    show ∃ Δ, (analyzePage env store w page).1.events = w.events ++ Δ
      ∧ StoreDelta w.studyHistoryId (analyzePage env store w page).1.studyHistoryId Δ
    unfold analyzePage
    by_cases h : pageIsAnalyzed w.pageAnalyses page = true
    · rw [if_pos h]
      exact ⟨[], by simp, StoreDelta.nil _⟩
    · rw [if_neg h]
      exact analyzePageGo_storeDelta env store page maxRetries 2000 w
  | consolidate =>
    exact saveFull_storeDelta env store w

/-- Any sequence of session operations satisfies `StoreDelta`. -/
lemma runOps_storeDelta (env : Env) (store : Store) :
    ∀ (ops : List SessionOp) (w : World),
      ∃ Δ, (runOps env store w ops).events = w.events ++ Δ
        ∧ StoreDelta w.studyHistoryId (runOps env store w ops).studyHistoryId Δ
  | [], w => ⟨[], by simp [runOps], StoreDelta.nil _⟩
  | op :: rest, w => by
    obtain ⟨Δ₁, he₁, hd₁⟩ := runOp_storeDelta env store w op
    obtain ⟨Δ₂, he₂, hd₂⟩ := runOps_storeDelta env store rest (runOp env store w op)
    refine ⟨Δ₁ ++ Δ₂, ?_, StoreDelta.trans hd₁ hd₂⟩
    show (runOps env store (runOp env store w op) rest).events = _
    rw [he₂, he₁, List.append_assoc]

/-- Running concatenated operation lists runs them in sequence. -/
lemma runOps_append (env : Env) (store : Store) (w : World)
    (ops₁ ops₂ : List SessionOp) :
    runOps env store w (ops₁ ++ ops₂)
      = runOps env store (runOps env store w ops₁) ops₂ :=
  List.foldl_append _ _ _ _

/-- C1, amended: across any sequence of analyzeUnit/consolidate operations
on one session, at most one `saveStudyHistory` (create) call ever
succeeds, and no create call of any kind is issued after a successful
one, so once the Cumulative Record identifier is set it never changes for
the session (also across later operations) and every later consolidation
issues an update; when the identifier is set from the start no create is
ever issued.  A create can be re-issued only while the identifier is
still unset, that is, only after every earlier create failed. -/
theorem C1_create_once_amended (env : Env) (store : Store)
    (ops : List SessionOp) (w0 : World) (h0 : w0.events = []) :
    ((runOps env store w0 ops).events.countP Event.isSuccessfulCreate ≤ 1)
    ∧ noCreateAfterSuccess (runOps env store w0 ops).events = true
    ∧ (∀ v : String, w0.studyHistoryId = some v →
        (runOps env store w0 ops).studyHistoryId = some v
        ∧ (runOps env store w0 ops).events.countP Event.isCreate = 0)
    ∧ (∀ (ops₂ : List SessionOp) (v : String),
        (runOps env store w0 ops).studyHistoryId = some v →
        (runOps env store w0 (ops ++ ops₂)).studyHistoryId = some v) := by
  obtain ⟨Δ, hev, hsd⟩ := runOps_storeDelta env store ops w0
  have hevΔ : (runOps env store w0 ops).events = Δ := by
    rw [hev, h0]
    rfl
  refine ⟨?_, ?_, ?_, ?_⟩
  · rw [hevΔ]
    cases hid : w0.studyHistoryId with
    | some v =>
      rw [hid] at hsd
      have h1 := countP_sc_le_create Δ
      have h2 := hsd.2
      omega
    | none =>
      rw [hid] at hsd
      rcases hsd with ⟨-, hc, -⟩ | ⟨x, -, hc, -⟩ <;> omega
  · rw [hevΔ]
    cases hid : w0.studyHistoryId with
    | some v =>
      rw [hid] at hsd
      exact ncas_of_createfree hsd.2
    | none =>
      rw [hid] at hsd
      rcases hsd with ⟨-, -, hn⟩ | ⟨x, -, -, hn⟩ <;> exact hn
  · intro v hv
    rw [hv] at hsd
    exact ⟨hsd.1, by rw [hevΔ]; exact hsd.2⟩
  · intro ops₂ v hv
    rw [runOps_append]
    obtain ⟨Δ₂, he₂, hd₂⟩ := runOps_storeDelta env store ops₂ (runOps env store w0 ops)
    rw [hv] at hd₂
    exact hd₂.1

/-- Client response used in the duplicate-create counterexample. -/
def c1ca : ClientAnalysis :=
  { keyPoints := ["K1"], studyPoints := [], summary := "S1",
    tnpscRelevance := "R1", tnpscCategories := [] }

/-- Environment for the duplicate-create counterexample. -/
def c1Env : Env :=
  { fileName := "doc.pdf", totalPages := 1, user := true,
    extract := fun _ => "text", client := fun _ _ => .success c1ca }

/-- A store whose first create call throws and whose second succeeds. -/
def c1FailStore : Store :=
  { createResult := fun n => if n == 0 then none else some "H1",
    updateOk := fun _ => true }

/-- C1, counterexample: when the first create call fails (a caught
`StoreUnavailable`), the identifier stays unset and the next consolidation
issues a second `saveStudyHistory` call, so the create call is not issued
at most once per session lifetime as claimed: this session issues two. -/
theorem C1_create_twice_counterexample :
    (runOps c1Env c1FailStore initialWorld
        [.analyze 1, .consolidate]).events.countP Event.isCreate = 2 := by
  decide

/-- Witness for the amended C1 theorem at a concrete run. -/
theorem C1_create_once_amended_witness :
    (initialWorld.events = [])
    ∧ ((runOps c1Env c1FailStore initialWorld
          [.analyze 1, .consolidate]).events.countP Event.isSuccessfulCreate ≤ 1)
    ∧ noCreateAfterSuccess (runOps c1Env c1FailStore initialWorld
          [.analyze 1, .consolidate]).events = true :=
  ⟨rfl,
   (C1_create_once_amended c1Env c1FailStore [.analyze 1, .consolidate]
      initialWorld rfl).1,
   (C1_create_once_amended c1Env c1FailStore [.analyze 1, .consolidate]
      initialWorld rfl).2.1⟩
